import Mathlib

/-!
Verification development for the Smart-Thermometer repository.

The repository consists of near-duplicate GUI programs built around a small
ingestion-and-history core.  This file shallowly embeds that core:

* `SmartThermometerProgram.py` — the merged Flask server + GUI
  (`check_alerts`, `save_history`/`load_history`, `receive_data`,
  `SmartThermometerGUI.__init__`, `SmartThermometerGUI.periodic_update`,
  `toggle_sensor_cmd`);
* `smartguireal.py` — the sibling implementation with edge-triggered alerts
  (`SmartThermometerGUI.periodic_update` including its alert block);
* `SmartThermometerGUI.py` — `get_segments`.

Machine floats holding temperatures are modelled as rationals; `float('nan')`
(the missing-data marker used by every history buffer) is modelled as an
explicit constructor, since the programs only ever test it with
`math.isnan` / `is None` and never do arithmetic on it.
Wall-clock instants (`time.time()` results) are likewise rationals.
-/

namespace SmartThermometer

/-- An entry of a history deque: a finite temperature (Celsius) or the
missing marker `float('nan')`. -/
inductive TVal where
  | nan : TVal
  | val (q : ℚ) : TVal
deriving DecidableEq

/-- The missing-data test used throughout the sources:
`(v is None) or (isinstance(v, float) and math.isnan(v))`.
History entries are only ever floats or NaN (`None` is never appended),
so on this domain the test is exactly "is the NaN marker". -/
def TVal.isMissing : TVal → Bool
  | TVal.nan => true
  | TVal.val _ => false

/-- `MAX_HISTORY_SEC = 500` (both server files). -/
def MAX_HISTORY_SEC : Nat := 500

/-- `THIRD_BOX_TIMEOUT_S = 2.0` (both server files). -/
def THIRD_BOX_TIMEOUT_S : ℚ := 2

/-- `ALERT_COOLDOWN = 30` seconds (`SmartThermometerProgram.py`). -/
def ALERT_COOLDOWN : ℚ := 30

/-- `collections.deque(..., maxlen=n).append(v)`: appends at the right and,
when the deque is at capacity, discards the leftmost entry. -/
def dequeAppend (maxlen : Nat) (h : List TVal) (v : TVal) : List TVal :=
  if h.length < maxlen then h ++ [v] else h.tail ++ [v]

/-- The global `command_state` dict: desired on/off intent per sensor plus
the display flag, as sent back to the ESP32. -/
structure CommandState where
  sensor1 : Bool
  sensor2 : Bool
  display_on : Bool
deriving DecidableEq

/-- The global `last_changed` dict: when each command was last changed
from the GUI. -/
structure LastChanged where
  sensor1 : ℚ
  sensor2 : ℚ
  display_on : ℚ
deriving DecidableEq

/-- The two sensor names used as `sensor_name` strings. -/
inductive SensorName where
  | sensor1 : SensorName
  | sensor2 : SensorName
deriving DecidableEq

/-- The two alert kinds; together with a `SensorName` they form the keys
`"sensor1_high"`, `"sensor1_low"`, `"sensor2_high"`, `"sensor2_low"` of the
global `last_alert_time` dict. -/
inductive AlertKind where
  | high : AlertKind
  | low : AlertKind
deriving DecidableEq

/-- The global `last_alert_time` dict of `SmartThermometerProgram.py`,
keyed by sensor name and alert kind. -/
def AlertTimes : Type := SensorName → AlertKind → ℚ

/-- All four entries of `last_alert_time` start at `0.0`. -/
def initial_alert_times : AlertTimes := fun _ _ => 0

/-- `last_alert_time[key] = now` for `key = f"{sn}_{k}"`. -/
def updateAlert (t : AlertTimes) (sn : SensorName) (k : AlertKind) (now : ℚ) :
    AlertTimes :=
  fun sn' k' => if sn' = sn ∧ k' = k then now else t sn' k'

/-- One invocation of the notification collaborator
(`send_high_temp_alert` / `send_low_temp_alert`), recording which sensor,
which kind, and the `now` at which it fired. -/
structure AlertEvent where
  sensor : SensorName
  kind : AlertKind
  time : ℚ
deriving DecidableEq

/-- The high-threshold block of `check_alerts` (lines 124-129):
fire when `temp_c_val > 32.0` and the per-key cooldown has elapsed;
on firing, stamp `last_alert_time[key] = now`. -/
def check_alerts_high (sn : SensorName) (v now : ℚ) (t : AlertTimes) :
    AlertTimes × List AlertEvent :=
  if 32 < v then
    if ALERT_COOLDOWN ≤ now - t sn AlertKind.high then
      (updateAlert t sn AlertKind.high now,
        [{ sensor := sn, kind := AlertKind.high, time := now }])
    else (t, [])
  else (t, [])

/-- The low-threshold block of `check_alerts` (lines 131-136):
fire when `temp_c_val < 21.0` and the per-key cooldown has elapsed. -/
def check_alerts_low (sn : SensorName) (v now : ℚ) (t : AlertTimes) :
    AlertTimes × List AlertEvent :=
  if v < 21 then
    if ALERT_COOLDOWN ≤ now - t sn AlertKind.low then
      (updateAlert t sn AlertKind.low now,
        [{ sensor := sn, kind := AlertKind.low, time := now }])
    else (t, [])
  else (t, [])

/-- `check_alerts(sensor_name, temp_c)` of `SmartThermometerProgram.py`.
`temp_c = None` (or a value `float()` rejects) returns immediately;
otherwise the high block runs, then the low block, against the shared
`last_alert_time` state.  The returned list holds the notifications sent. -/
def check_alerts (sn : SensorName) (temp_c : Option ℚ) (now : ℚ)
    (t : AlertTimes) : AlertTimes × List AlertEvent :=
  match temp_c with
  | none => (t, [])
  | some v =>
      let hi := check_alerts_high sn v now t
      let lo := check_alerts_low sn v now hi.1
      (lo.1, hi.2 ++ lo.2)

/-- One call to `check_alerts`: the sensor it is invoked for, the `temp_c`
argument and the `time.time()` value observed inside the call. -/
structure AlertCall where
  sensor : SensorName
  temp_c : Option ℚ
  now : ℚ

/-- A sequence of `check_alerts` invocations threaded through the global
`last_alert_time` dict, collecting every notification sent. -/
def alerts_run (t : AlertTimes) : List AlertCall → AlertTimes × List AlertEvent
  | [] => (t, [])
  | c :: rest =>
      let r := check_alerts c.sensor c.temp_c c.now t
      let r2 := alerts_run r.1 rest
      (r2.1, r.2 ++ r2.2)

/-- A raw `temp1`/`temp2` JSON value as it travels through the queue.
`num q` is a value `float()` converts successfully; `bad` is a value
`float()` raises on (e.g. a non-numeric string).  A JSON `null` or an
absent key are both `data.get(...) = None` and are modelled by wrapping
in `Option` at each use site. -/
inductive JTemp where
  | num (q : ℚ) : JTemp
  | bad : JTemp
deriving DecidableEq

/-- A dict pushed onto `data_queue` by `receive_data` of
`SmartThermometerProgram.py` (lines 214-221). -/
structure Msg where
  temp1 : Option JTemp
  temp2 : Option JTemp
  esp_timestamp : Option ℚ
  server_recv_time : Option ℚ
  esp_sensor1 : Option Bool
  esp_sensor2 : Option Bool
deriving DecidableEq

/-- The parsed JSON body of a `/data` POST, after `data = request.json or {}`:
each field is `data.get(key, None)`.  `sensor1`/`sensor2` carry the
`bool(...)`-coerced value when the key is present. -/
structure PayloadDict where
  temp1 : Option JTemp
  temp2 : Option JTemp
  timestamp : Option ℚ
  sensor1 : Option Bool
  sensor2 : Option Bool
deriving DecidableEq

/-- An inbound `/data` request body.  `malformed` covers every body on which
the handler raises while reading the payload (unparseable JSON raised by
`request.json`, or a non-dict JSON document on which `data.get` raises an
`AttributeError`); all such exceptions occur before any state is touched
(lines 189-196) and end in the `except` branch. -/
inductive ReqBody where
  | malformed : ReqBody
  | json (d : PayloadDict) : ReqBody

/-- The module-level mutable state the Flask handler touches:
`command_state`, `last_changed` and `data_queue`. -/
structure ServerState where
  command_state : CommandState
  last_changed : LastChanged
  data_queue : List Msg
deriving DecidableEq

/-- The JSON body of the handler's reply: the `command_state` snapshot on
success, `{"status": "error", ...}` on failure. -/
inductive HttpBody where
  | ok (sensor1 sensor2 display_on : Bool) : HttpBody
  | error : HttpBody
deriving DecidableEq

/-- An HTTP reply `(jsonify(...), status)`. -/
structure HttpResponse where
  status : Nat
  body : HttpBody
deriving DecidableEq

/-- `toggle_sensor_cmd(sensor_num)` (lines 328-337): flip
`command_state[f"sensor{sensor_num}"]` and stamp
`last_changed[key] = time.time()`.  Only called with `sensor_num ∈ {1,2}`. -/
def toggle_sensor_cmd (sensor_num : Nat) (now : ℚ)
    (cs : CommandState) (lc : LastChanged) : CommandState × LastChanged :=
  if sensor_num = 1 then
    ({ cs with sensor1 := !cs.sensor1 }, { lc with sensor1 := now })
  else
    ({ cs with sensor2 := !cs.sensor2 }, { lc with sensor2 := now })

/-- Lines 199-201 of `receive_data`: apply a remote-reported `sensor1` only
when more than the 1-second debounce window has passed since the last GUI
change of that key. -/
def apply_remote_sensor1 (d : PayloadDict) (now : ℚ) (lc : LastChanged)
    (cs : CommandState) : CommandState :=
  match d.sensor1 with
  | some b => if now - lc.sensor1 > 1 then { cs with sensor1 := b } else cs
  | none => cs

/-- Lines 202-204 of `receive_data`: the same for `sensor2`. -/
def apply_remote_sensor2 (d : PayloadDict) (now : ℚ) (lc : LastChanged)
    (cs : CommandState) : CommandState :=
  match d.sensor2 with
  | some b => if now - lc.sensor2 > 1 then { cs with sensor2 := b } else cs
  | none => cs

/-- The `command_state` update performed by one `/data` request. -/
def update_command_state (d : PayloadDict) (now : ℚ) (lc : LastChanged)
    (cs : CommandState) : CommandState :=
  apply_remote_sensor2 d now lc (apply_remote_sensor1 d now lc cs)

/-- The dict pushed onto `data_queue` (lines 214-221), with
`server_recv_time = time.time()`. -/
def mkQueueMsg (d : PayloadDict) (received_time : ℚ) : Msg :=
  { temp1 := d.temp1
    temp2 := d.temp2
    esp_timestamp := d.timestamp
    server_recv_time := some received_time
    esp_sensor1 := d.sensor1
    esp_sensor2 := d.sensor2 }

/-- The `/data` handler `receive_data` of `SmartThermometerProgram.py`
(lines 185-235).  On a well-formed body: update `command_state` under the
debounce rule, enqueue the reading, reply 200 with the `command_state`
snapshot.  On a body that raises while being read: the `except` branch
replies 400 and no state has been touched. -/
def receive_data (body : ReqBody) (now : ℚ) (st : ServerState) :
    ServerState × HttpResponse :=
  match body with
  | ReqBody.malformed => (st, { status := 400, body := HttpBody.error })
  | ReqBody.json d =>
      let cs := update_command_state d now st.last_changed st.command_state
      ({ st with
          command_state := cs
          data_queue := st.data_queue ++ [mkQueueMsg d now] },
       { status := 200
         body := HttpBody.ok cs.sensor1 cs.sensor2 cs.display_on })

/-- The persisted JSON document written by `save_history`:
`{"history_1": [...], "history_2": [...]}`, oldest first.  Python's `json`
round-trips both finite floats and `NaN` (it emits the literal `NaN` and
parses it back), so a `TVal` list round-trips losslessly. -/
structure PersistFile where
  history_1 : List TVal
  history_2 : List TVal
deriving DecidableEq

/-- `save_history(history_1, history_2)` (lines 144-153), with the I/O
boundary abstracted to the document written. -/
def save_history (h1 h2 : List TVal) : PersistFile :=
  { history_1 := h1, history_2 := h2 }

/-- `load_history()` (lines 156-166): `(None, None)` when the file is absent
(or unreadable), otherwise the two stored arrays. -/
def load_history : Option PersistFile → Option (List TVal) × Option (List TVal)
  | none => (none, none)
  | some f => (some f.history_1, some f.history_2)

/-- The per-entry normalisation at load time (lines 269-270):
`v if (v is None or (isinstance(v, (int, float)) and not math.isnan(v))) else float('nan')`.
On history entries (finite floats and NaN — `None` is never appended to a
history) this keeps finite values and re-creates the NaN marker. -/
def normalize_entry : TVal → TVal
  | TVal.val q => TVal.val q
  | TVal.nan => TVal.nan

/-- The Python slice `l[-n:]`: the most recent `n` entries (all of them when
fewer are stored). -/
def takeLast (n : Nat) (l : List TVal) : List TVal :=
  l.drop (l.length - n)

/-- A fresh history buffer: `deque([nan] * MAX_HISTORY_SEC, maxlen=MAX_HISTORY_SEC)`. -/
def freshHistory : List TVal :=
  List.replicate MAX_HISTORY_SEC TVal.nan

/-- What `__init__` does to one loaded array (lines 269-283): normalise the
entries, keep the most recent `MAX_HISTORY_SEC`, and left-pad with NaN when
shorter. -/
def initOne (l : List TVal) : List TVal :=
  let t := takeLast MAX_HISTORY_SEC (l.map normalize_entry)
  if t.length < MAX_HISTORY_SEC then
    List.replicate (MAX_HISTORY_SEC - t.length) TVal.nan ++ t
  else t

/-- The history set-up of `SmartThermometerGUI.__init__`
(`SmartThermometerProgram.py` lines 263-286), applied to the result of
`load_history()`.  The guard is Python's `if loaded1 and loaded2:`, which is
false when either value is `None` or an empty list; in that case both
buffers start as fresh all-NaN deques. -/
def initHistories (loaded : Option (List TVal) × Option (List TVal)) :
    List TVal × List TVal :=
  match loaded with
  | (some l1, some l2) =>
      if !l1.isEmpty && !l2.isEmpty then (initOne l1, initOne l2)
      else (freshHistory, freshHistory)
  | _ => (freshHistory, freshHistory)

/-- A sequence of deque appends, as performed once per tick. -/
def appendAll (h : List TVal) (vs : List TVal) : List TVal :=
  vs.foldl (fun acc v => dequeAppend MAX_HISTORY_SEC acc v) h

/-- Modelled from the spec (§4.6): the stated round-trip shape — "if the
stored length is shorter than the configured window, left-pad with missing
markers to reach the configured length; if longer, keep only the most recent
window-length entries".  Used only to compare against `initHistories`. -/
def padTruncSpec (l : List TVal) : List TVal :=
  let t := takeLast MAX_HISTORY_SEC l
  List.replicate (MAX_HISTORY_SEC - t.length) TVal.nan ++ t

/-- Lines 387-402 of `periodic_update`: `temps_c[i]` becomes `None` when the
message's temp is `None`, the parsed float when `float(t)` succeeds, and
`None` again when `float(t)` raises. -/
def parseTemp : Option JTemp → Option ℚ
  | none => none
  | some (JTemp.num q) => some q
  | some JTemp.bad => none

/-- The appended value for one sensor (lines 419-420):
`temps_c[i] if (sensors_enabled[i] and temps_c[i] is not None) else float('nan')`. -/
def effectiveVal (enabled : Bool) (t : Option ℚ) : TVal :=
  match enabled, t with
  | true, some v => TVal.val v
  | _, _ => TVal.nan

/-- The per-tick mutable fields of `SmartThermometerGUI`
(`SmartThermometerProgram.py`). -/
structure ProgState where
  temps_c1 : Option ℚ
  temps_c2 : Option ℚ
  sensors_enabled1 : Bool
  sensors_enabled2 : Bool
  third_box_on : Bool
  last_recv_time : ℚ
  history_1 : List TVal
  history_2 : List TVal
deriving DecidableEq

/-- `SmartThermometerGUI.periodic_update` of `SmartThermometerProgram.py`
(lines 357-428): drain `data_queue` keeping only the most recent message;
on a message, set `temps_c` from the payload, reflect `command_state` into
`sensors_enabled`, run `check_alerts` for each enabled sensor with a
reading, and append the effective value of each sensor; with no message,
recompute the third-box liveness and append NaN to both histories.
The label/redraw/save tail of the method (lines 430-471) only renders this
state and is not modelled.  Returns the new GUI state, the new
`last_alert_time` dict and the notifications sent this tick. -/
def periodic_update (cmd : CommandState) (alerts : AlertTimes)
    (st : ProgState) (q : List Msg) (now : ℚ) :
    ProgState × AlertTimes × List AlertEvent :=
  match q.getLast? with
  | some m =>
      let t1 := parseTemp m.temp1
      let t2 := parseTemp m.temp2
      let enabled1 := cmd.sensor1
      let enabled2 := cmd.sensor2
      let r1 := if enabled1 && t1.isSome then
          check_alerts SensorName.sensor1 t1 now alerts
        else (alerts, [])
      let r2 := if enabled2 && t2.isSome then
          check_alerts SensorName.sensor2 t2 now r1.1
        else (r1.1, [])
      ({ st with
          temps_c1 := t1
          temps_c2 := t2
          sensors_enabled1 := enabled1
          sensors_enabled2 := enabled2
          third_box_on := true
          last_recv_time := m.server_recv_time.getD now
          history_1 := dequeAppend MAX_HISTORY_SEC st.history_1
            (effectiveVal enabled1 t1)
          history_2 := dequeAppend MAX_HISTORY_SEC st.history_2
            (effectiveVal enabled2 t2) },
       r2.1, r1.2 ++ r2.2)
  | none =>
      ({ st with
          third_box_on :=
            if now - st.last_recv_time > THIRD_BOX_TIMEOUT_S then false
            else st.third_box_on
          history_1 := dequeAppend MAX_HISTORY_SEC st.history_1 TVal.nan
          history_2 := dequeAppend MAX_HISTORY_SEC st.history_2 TVal.nan },
       alerts, [])

/-- `LOW_C = 18.0` (`smartguireal.py`). -/
def LOW_C : ℚ := 18

/-- `HIGH_C = 32.0` (`smartguireal.py`). -/
def HIGH_C : ℚ := 32

/-- The per-tick mutable fields of `SmartThermometerGUI` in
`smartguireal.py`; there `temps_c` starts at `22.0` and is never `None`. -/
structure RealState where
  temps_c1 : ℚ
  temps_c2 : ℚ
  sensors_enabled1 : Bool
  sensors_enabled2 : Bool
  third_box_on : Bool
  last_recv_time : ℚ
  history_1 : List TVal
  history_2 : List TVal
deriving DecidableEq

/-- A dict pushed onto `data_queue` by `receive_data` of `smartguireal.py`
(lines 115-117).  Temps are numeric or `None`: this variant calls
`float(t)` unguarded, so a non-numeric temp would raise out of the tick and
is outside the model. -/
structure RealMsg where
  temp1 : Option ℚ
  temp2 : Option ℚ
  esp_timestamp : Option ℚ
  server_recv_time : Option ℚ
deriving DecidableEq

/-- The body of the alert loop of `smartguireal.py` (lines 259-268) for one
enabled sensor: the edge-triggered state machine over
`last_alert_state[sensor_id]`.  Returns the new state and the fired kind,
if a notification was sent. -/
def alert_step (state : Option AlertKind) (temp_c : ℚ) :
    Option AlertKind × Option AlertKind :=
  if HIGH_C < temp_c ∧ state ≠ some AlertKind.high then
    (some AlertKind.high, some AlertKind.high)
  else if temp_c < LOW_C ∧ state ≠ some AlertKind.low then
    (some AlertKind.low, some AlertKind.low)
  else if LOW_C ≤ temp_c ∧ temp_c ≤ HIGH_C then (none, none)
  else (state, none)

/-- The notifications sent by one pass of the alert loop, tagged with the
`sensor_id` (1 or 2). -/
def fireEvents (f1 f2 : Option AlertKind) : List (Nat × AlertKind) :=
  (match f1 with | some k => [(1, k)] | none => []) ++
    (match f2 with | some k => [(2, k)] | none => [])

/-- `SmartThermometerGUI.periodic_update` of `smartguireal.py`
(lines 220-290): drain the queue; on a message, `sensors_enabled[i]` is set
from whether `temp_i` is present in the payload (the `command_state` global
is read only for the button-label text, lines 286-287, and plays no part in
what is appended); append `temps_c[i]` when enabled, else NaN; with no
message, append NaN to both.  Then the alert loop runs for each enabled
sensor.  Returns the new GUI state, the new `last_alert_state` pair and the
notifications sent. -/
def smartguireal_tick (cmd : CommandState) (st : RealState)
    (last_alert_1 last_alert_2 : Option AlertKind) (q : List RealMsg)
    (now : ℚ) :
    RealState × (Option AlertKind × Option AlertKind) × List (Nat × AlertKind) :=
  let _ := cmd
  let stMid :=
    match q.getLast? with
    | some m =>
        let stA :=
          match m.temp1 with
          | some v => { st with temps_c1 := v, sensors_enabled1 := true }
          | none => { st with sensors_enabled1 := false }
        let stB :=
          match m.temp2 with
          | some v => { stA with temps_c2 := v, sensors_enabled2 := true }
          | none => { stA with sensors_enabled2 := false }
        { stB with
            last_recv_time := m.server_recv_time.getD now
            third_box_on := true
            history_1 := dequeAppend MAX_HISTORY_SEC stB.history_1
              (if stB.sensors_enabled1 then TVal.val stB.temps_c1 else TVal.nan)
            history_2 := dequeAppend MAX_HISTORY_SEC stB.history_2
              (if stB.sensors_enabled2 then TVal.val stB.temps_c2 else TVal.nan) }
    | none =>
        { st with
            third_box_on :=
              if now - st.last_recv_time > THIRD_BOX_TIMEOUT_S then false
              else st.third_box_on
            history_1 := dequeAppend MAX_HISTORY_SEC st.history_1 TVal.nan
            history_2 := dequeAppend MAX_HISTORY_SEC st.history_2 TVal.nan }
  let a1 := if stMid.sensors_enabled1 then alert_step last_alert_1 stMid.temps_c1
    else (last_alert_1, none)
  let a2 := if stMid.sensors_enabled2 then alert_step last_alert_2 stMid.temps_c2
    else (last_alert_2, none)
  (stMid, (a1.1, a2.1), fireEvents a1.2 a2.2)

/-- Iterate `alert_step` over a value sequence, recording the index of every
tick at which a notification fired. -/
def alert_fire_go (s : Option AlertKind) (vs : List ℚ) (i : Nat) :
    List (Nat × AlertKind) :=
  match vs with
  | [] => []
  | v :: rest =>
      let r := alert_step s v
      (match r.2 with | some k => [(i, k)] | none => []) ++
        alert_fire_go r.1 rest (i + 1)

/-- The indices at which the edge-triggered alert engine fires on a value
sequence, starting from the initial `last_alert_state` of `None`. -/
def alert_fire_indices (vs : List ℚ) : List (Nat × AlertKind) :=
  alert_fire_go none vs 0

/-- The loop of `SmartThermometerGUI.get_segments` (`SmartThermometerGUI.py`
lines 179-196), carried out over the paired x/y data (the Python loop walks
`range(len(y_data))` indexing both lists; the call sites pass equal-length
lists).  `current_x`/`current_y` accumulate the run in progress; a present
value extends it, a missing value flushes it (when non-empty), and the
trailing run is flushed at the end.  `plot_segments` inside
`SmartThermometerProgram.redraw_graph` (lines 518-533) performs the same
split, plotting each flushed run instead of collecting it. -/
def get_segments_loop {α : Type} (xy : List (α × TVal)) (current_x : List α)
    (current_y : List TVal) (segments : List (List α × List TVal)) :
    List (List α × List TVal) :=
  match xy with
  | [] => if current_x.isEmpty then segments
      else segments ++ [(current_x, current_y)]
  | (xi, yi) :: rest =>
      if yi.isMissing = false then
        get_segments_loop rest (current_x ++ [xi]) (current_y ++ [yi]) segments
      else if current_x.isEmpty then
        get_segments_loop rest current_x current_y segments
      else
        get_segments_loop rest [] [] (segments ++ [(current_x, current_y)])

/-- `get_segments(x_data, y_data)`: the list of x-runs and the list of
y-runs. -/
def get_segments {α : Type} (x_data : List α) (y_data : List TVal) :
    List (List α) × List (List TVal) :=
  let segs := get_segments_loop (x_data.zip y_data) [] [] []
  (segs.map Prod.fst, segs.map Prod.snd)

/-- Generalisation of the y-side of the split used to reason about the loop:
the runs produced from input `y` when a run `cur` is already in progress. -/
def runsFrom : List TVal → List TVal → List (List TVal)
  | cur, [] => if cur.isEmpty then [] else [cur]
  | cur, TVal.nan :: rest =>
      if cur.isEmpty then runsFrom [] rest else cur :: runsFrom [] rest
  | cur, TVal.val q :: rest => runsFrom (cur ++ [TVal.val q]) rest

/-- Modelled from the spec (§4.2 `segments`): the maximal runs of
consecutive present values, in order — each run starts at a present value,
extends through every adjacent present value, and a run boundary occurs at
every missing entry.  Used only to compare against `get_segments`. -/
def maximalRuns : List TVal → List (List TVal)
  | [] => []
  | TVal.nan :: rest => maximalRuns rest
  | TVal.val q :: rest =>
      (TVal.val q :: rest.takeWhile (fun v => !v.isMissing)) ::
        maximalRuns (rest.dropWhile (fun v => !v.isMissing))
termination_by l => l.length
decreasing_by
  all_goals simp only [List.length_cons]
  · omega
  · have h : ∀ l : List TVal,
        (l.dropWhile fun v => !v.isMissing).length ≤ l.length := by
      intro l
      induction l with
      | nil => simp [List.dropWhile]
      | cons a t ih =>
        simp only [List.dropWhile]
        split
        · exact Nat.le_succ_of_le ih
        · simp
    exact Nat.lt_succ_of_le (h rest)

/-- The desired on/off command for sensor `s ∈ {1,2}`:
`command_state[f"sensor{s}"]`. -/
def cmdFor (cmd : CommandState) (s : Nat) : Bool :=
  if s = 1 then cmd.sensor1 else cmd.sensor2

/-- The history buffer of sensor `s ∈ {1,2}`. -/
def histFor (st : ProgState) (s : Nat) : List TVal :=
  if s = 1 then st.history_1 else st.history_2

/-- The remote-reported sensor flag for sensor `s ∈ {1,2}` in a payload. -/
def payloadSensor (d : PayloadDict) (s : Nat) : Option Bool :=
  if s = 1 then d.sensor1 else d.sensor2

/-- The `last_changed` stamp for sensor `s ∈ {1,2}`. -/
def lcFor (lc : LastChanged) (s : Nat) : ℚ :=
  if s = 1 then lc.sensor1 else lc.sensor2

/-- A concrete `command_state` with both sensors desired off
(its initial value in both server files). -/
def sampleCmd : CommandState :=
  { sensor1 := false, sensor2 := false, display_on := true }

/-- A concrete GUI state as built by `__init__` with no persisted file. -/
def sampleProgState : ProgState :=
  { temps_c1 := none
    temps_c2 := none
    sensors_enabled1 := false
    sensors_enabled2 := false
    third_box_on := false
    last_recv_time := 0
    history_1 := freshHistory
    history_2 := freshHistory }

/-- A concrete `smartguireal.py` GUI state as built by `__init__` with no
persisted file. -/
def sampleRealState : RealState :=
  { temps_c1 := 22
    temps_c2 := 22
    sensors_enabled1 := false
    sensors_enabled2 := false
    third_box_on := false
    last_recv_time := 0
    history_1 := freshHistory
    history_2 := freshHistory }

/-- A concrete inbound message reporting `temp1 = 25.0` while sensor 1 is
desired off. -/
def sampleRealMsg : RealMsg :=
  { temp1 := some 25
    temp2 := none
    esp_timestamp := none
    server_recv_time := some 1 }

/-- A concrete `/data` payload reporting `sensor1 = true`. -/
def samplePayload : PayloadDict :=
  { temp1 := none
    temp2 := none
    timestamp := none
    sensor1 := some true
    sensor2 := none }

/-- The command/last-changed pair after the GUI toggles sensor 1 (from on to
off) at time 100. -/
def sampleToggled : CommandState × LastChanged :=
  toggle_sensor_cmd 1 100 { sensor1 := true, sensor2 := false, display_on := true }
    { sensor1 := 0, sensor2 := 0, display_on := 0 }

/-- The server state right after that toggle, with an empty queue. -/
def sampleServer : ServerState :=
  { command_state := sampleToggled.1
    last_changed := sampleToggled.2
    data_queue := [] }

/-! ## Helper lemmas -/

/-- A deque append always places the new value last. -/
theorem dequeAppend_getLast {h : List TVal} {v : TVal} {n : Nat} :
    (dequeAppend n h v).getLast? = some v := by
  unfold dequeAppend
  split <;> exact List.getLast?_concat _

/-- At capacity, a deque append evicts the oldest entry. -/
theorem dequeAppend_of_full {h : List TVal} {v : TVal}
    (hl : h.length = MAX_HISTORY_SEC) :
    dequeAppend MAX_HISTORY_SEC h v = h.tail ++ [v] := by
  simp [dequeAppend, hl]

/-- A deque append at capacity keeps the length at capacity. -/
theorem dequeAppend_length {h : List TVal} {v : TVal}
    (hl : h.length = MAX_HISTORY_SEC) :
    (dequeAppend MAX_HISTORY_SEC h v).length = MAX_HISTORY_SEC := by
  rw [dequeAppend_of_full hl, List.length_append, List.length_tail, hl]
  rfl

/-- `l[-n:]` has at most `n` entries. -/
theorem takeLast_length_le (n : Nat) (l : List TVal) :
    (takeLast n l).length ≤ n := by
  simp only [takeLast, List.length_drop]
  omega

/-- The load-time normalisation is the identity on history entries. -/
theorem map_normalize_entry (l : List TVal) : l.map normalize_entry = l := by
  induction l with
  | nil => rfl
  | cons a t ih => cases a <;> simp [normalize_entry, ih]

/-- One loaded array is initialised to exactly the truncate-then-pad shape
the spec describes. -/
theorem initOne_eq (l : List TVal) : initOne l = padTruncSpec l := by
  have hmap := map_normalize_entry l
  rw [initOne, hmap]
  split
  · rfl
  · rename_i hge
    have hle := takeLast_length_le MAX_HISTORY_SEC l
    have h0 : MAX_HISTORY_SEC - (takeLast MAX_HISTORY_SEC l).length = 0 := by
      omega
    simp [padTruncSpec, h0]

/-- Each initialised history has length exactly `MAX_HISTORY_SEC`. -/
theorem initOne_length (l : List TVal) :
    (initOne l).length = MAX_HISTORY_SEC := by
  have hmap := map_normalize_entry l
  rw [initOne, hmap]
  split
  · rename_i hlt
    simp only [List.length_append, List.length_replicate]
    omega
  · rename_i hge
    have hle := takeLast_length_le MAX_HISTORY_SEC l
    omega

/-- The fresh buffer has length exactly `MAX_HISTORY_SEC`. -/
theorem freshHistory_length : freshHistory.length = MAX_HISTORY_SEC := by
  simp [freshHistory]

/-- Both start-up histories have length exactly `MAX_HISTORY_SEC`, for any
load result. -/
theorem initHistories_length (loaded : Option (List TVal) × Option (List TVal)) :
    (initHistories loaded).1.length = MAX_HISTORY_SEC
    ∧ (initHistories loaded).2.length = MAX_HISTORY_SEC := by
  rcases loaded with ⟨l1, l2⟩
  cases l1 <;> cases l2 <;>
    simp only [initHistories, freshHistory_length, and_self]
  split <;> simp [initOne_length, freshHistory_length]

/-- Folding deque appends over a full buffer keeps it exactly full. -/
theorem appendAll_length {h : List TVal} (vs : List TVal)
    (hl : h.length = MAX_HISTORY_SEC) :
    (appendAll h vs).length = MAX_HISTORY_SEC := by
  induction vs generalizing h with
  | nil => exact hl
  | cons v rest ih =>
      simp only [appendAll, List.foldl_cons]
      exact ih (dequeAppend_length hl)

/-- A disabled sensor's effective value is the missing marker. -/
theorem effectiveVal_false (t : Option ℚ) :
    effectiveVal false t = TVal.nan := by
  cases t <;> rfl

/-! ## Claims -/

/-- Claim C2: fed the Celsius sequence `[30, 33, 34, 33, 20, 33]` with
thresholds `[18, 32]`, the edge-triggered alert engine of `smartguireal.py`
fires exactly at index 1 and index 5 (both high), and in particular not at
index 2. -/
theorem alert_edge_trigger_sequence :
    alert_fire_indices [30, 33, 34, 33, 20, 33]
        = [(1, AlertKind.high), (5, AlertKind.high)]
    ∧ (alert_fire_indices [30, 33, 34, 33, 20, 33]).all
        (fun e => e.1 != 2) = true := by
  constructor <;> decide

/-- Claim C8: a malformed `/data` payload (one that raises while being read)
is answered with client-error status 400 and mutates none of
`command_state`, `last_changed` or `data_queue`. -/
theorem malformed_request_rejected_without_mutation (now : ℚ)
    (st : ServerState) :
    (receive_data ReqBody.malformed now st).1 = st
    ∧ (receive_data ReqBody.malformed now st).2
        = { status := 400, body := HttpBody.error } :=
  ⟨rfl, rfl⟩

/-- Claim C3: for every load result and every sequence of appends, each
sensor history has length exactly `MAX_HISTORY_SEC`; the fresh buffer is
pre-filled with missing markers at creation. -/
theorem history_capacity_invariant
    (loaded : Option (List TVal) × Option (List TVal)) (vs1 vs2 : List TVal) :
    (appendAll (initHistories loaded).1 vs1).length = MAX_HISTORY_SEC
    ∧ (appendAll (initHistories loaded).2 vs2).length = MAX_HISTORY_SEC
    ∧ (initHistories (none, none)).1 = List.replicate MAX_HISTORY_SEC TVal.nan := by
  refine ⟨appendAll_length vs1 (initHistories_length loaded).1,
    appendAll_length vs2 (initHistories_length loaded).2, rfl⟩

set_option maxRecDepth 4000 in
/-- Claim C1 counterexample: in `smartguireal.py`'s `periodic_update`, a
tick at which `command_state["sensor1"]` is `false` but the drained payload
reports `temp1 = 25.0` appends the present value `25.0` — not the missing
marker — to sensor 1's history. -/
theorem gating_claim_counterexample :
    sampleCmd.sensor1 = false
    ∧ (smartguireal_tick sampleCmd sampleRealState none none
        [sampleRealMsg] 1).1.history_1.getLast? = some (TVal.val 25)
    ∧ TVal.val 25 ≠ TVal.nan := by
  refine ⟨rfl, by decide, by decide⟩

/-- Claim C1 (amended): in `SmartThermometerProgram.py`'s `periodic_update`,
for every tick and every sensor `s ∈ {1,2}`, if `command_state[f"sensor{s}"]`
is `false` at that tick then the value appended to sensor `s`'s history is
the missing marker, regardless of the drained payload.  (`smartguireal.py`'s
variant instead gates the append on payload presence and violates this.) -/
theorem gating_invariant_program (cmd : CommandState) (alerts : AlertTimes)
    (st : ProgState) (q : List Msg) (now : ℚ) (s : Nat)
    (hs : s = 1 ∨ s = 2) (hoff : cmdFor cmd s = false) :
    (histFor (periodic_update cmd alerts st q now).1 s).getLast?
      = some TVal.nan := by
  rcases hs with rfl | rfl <;> simp [cmdFor] at hoff <;>
    cases hq : q.getLast? <;>
      simp [periodic_update, hq, histFor, cmdFor, hoff, effectiveVal_false,
        dequeAppend_getLast]

/-- Witness for C1's amended theorem at a concrete tick. -/
theorem gating_invariant_program_witness :
    (((1 : Nat) = 1 ∨ (1 : Nat) = 2) ∧ cmdFor sampleCmd 1 = false)
    ∧ (histFor (periodic_update sampleCmd initial_alert_times sampleProgState
        [] 5).1 1).getLast? = some TVal.nan :=
  ⟨⟨Or.inl rfl, by decide⟩,
    gating_invariant_program sampleCmd initial_alert_times sampleProgState
      [] 5 1 (Or.inl rfl) (by decide)⟩

/-- Claim C5: a tick that drains no inbound message while more than
`THIRD_BOX_TIMEOUT_S` has elapsed since the last received message appends
the missing marker to both histories (and marks the third box off). -/
theorem no_message_timeout_appends_missing (cmd : CommandState)
    (alerts : AlertTimes) (st : ProgState) (now : ℚ)
    (hto : now - st.last_recv_time > THIRD_BOX_TIMEOUT_S) :
    (periodic_update cmd alerts st [] now).1.history_1.getLast? = some TVal.nan
    ∧ (periodic_update cmd alerts st [] now).1.history_2.getLast? = some TVal.nan
    ∧ (periodic_update cmd alerts st [] now).1.third_box_on = false := by
  refine ⟨?_, ?_, ?_⟩ <;> simp [periodic_update, dequeAppend_getLast, hto]

/-- Witness for C5 at a concrete tick 5 s after the last message. -/
theorem no_message_timeout_witness :
    ((5 : ℚ) - sampleProgState.last_recv_time > THIRD_BOX_TIMEOUT_S)
    ∧ ((periodic_update sampleCmd initial_alert_times sampleProgState
          [] 5).1.history_1.getLast? = some TVal.nan
      ∧ (periodic_update sampleCmd initial_alert_times sampleProgState
          [] 5).1.history_2.getLast? = some TVal.nan
      ∧ (periodic_update sampleCmd initial_alert_times sampleProgState
          [] 5).1.third_box_on = false) :=
  ⟨by norm_num [sampleProgState, THIRD_BOX_TIMEOUT_S],
   no_message_timeout_appends_missing sampleCmd initial_alert_times
     sampleProgState 5 (by norm_num [sampleProgState, THIRD_BOX_TIMEOUT_S])⟩

/-- Claim C9: starting from full histories, every invocation of
`periodic_update` appends exactly one entry to each history — on every
branch the new buffer is the old one with its oldest entry evicted and one
value appended — so both histories keep length `MAX_HISTORY_SEC`. -/
theorem tick_appends_exactly_one (cmd : CommandState) (alerts : AlertTimes)
    (st : ProgState) (q : List Msg) (now : ℚ)
    (h1 : st.history_1.length = MAX_HISTORY_SEC)
    (h2 : st.history_2.length = MAX_HISTORY_SEC) :
    ∃ v1 v2 : TVal,
      (periodic_update cmd alerts st q now).1.history_1
          = st.history_1.tail ++ [v1]
      ∧ (periodic_update cmd alerts st q now).1.history_2
          = st.history_2.tail ++ [v2]
      ∧ (periodic_update cmd alerts st q now).1.history_1.length
          = MAX_HISTORY_SEC
      ∧ (periodic_update cmd alerts st q now).1.history_2.length
          = MAX_HISTORY_SEC := by
  cases hq : q.getLast? with
  | none =>
      exact ⟨TVal.nan, TVal.nan,
        by simp [periodic_update, hq, dequeAppend_of_full h1],
        by simp [periodic_update, hq, dequeAppend_of_full h2],
        by simp [periodic_update, hq, dequeAppend_length h1],
        by simp [periodic_update, hq, dequeAppend_length h2]⟩
  | some m =>
      exact ⟨effectiveVal cmd.sensor1 (parseTemp m.temp1),
        effectiveVal cmd.sensor2 (parseTemp m.temp2),
        by simp [periodic_update, hq, dequeAppend_of_full h1],
        by simp [periodic_update, hq, dequeAppend_of_full h2],
        by simp [periodic_update, hq, dequeAppend_length h1],
        by simp [periodic_update, hq, dequeAppend_length h2]⟩

/-- Witness for C9 at a concrete full state. -/
theorem tick_appends_exactly_one_witness :
    (sampleProgState.history_1.length = MAX_HISTORY_SEC
      ∧ sampleProgState.history_2.length = MAX_HISTORY_SEC)
    ∧ (∃ v1 v2 : TVal,
        (periodic_update sampleCmd initial_alert_times sampleProgState
            [] 5).1.history_1 = sampleProgState.history_1.tail ++ [v1]
        ∧ (periodic_update sampleCmd initial_alert_times sampleProgState
            [] 5).1.history_2 = sampleProgState.history_2.tail ++ [v2]
        ∧ (periodic_update sampleCmd initial_alert_times sampleProgState
            [] 5).1.history_1.length = MAX_HISTORY_SEC
        ∧ (periodic_update sampleCmd initial_alert_times sampleProgState
            [] 5).1.history_2.length = MAX_HISTORY_SEC) :=
  ⟨⟨by simp [sampleProgState, freshHistory_length],
    by simp [sampleProgState, freshHistory_length]⟩,
   tick_appends_exactly_one sampleCmd initial_alert_times sampleProgState
     [] 5 (by simp [sampleProgState, freshHistory_length])
     (by simp [sampleProgState, freshHistory_length])⟩

/-- Claim C4 (amended): loading after saving, followed by the start-up
padding/truncation, reproduces each history truncated to the most recent
`MAX_HISTORY_SEC` entries and left-padded with missing markers — provided
both saved sequences are non-empty.  (When either is empty, Python's
`if loaded1 and loaded2:` guard discards both and both buffers reset to
all-missing.) -/
theorem save_load_roundtrip (h1 h2 : List TVal) (hne1 : h1 ≠ [])
    (hne2 : h2 ≠ []) :
    initHistories (load_history (some (save_history h1 h2)))
      = (padTruncSpec h1, padTruncSpec h2) := by
  have e1 : h1.isEmpty = false := by simpa using hne1
  have e2 : h2.isEmpty = false := by simpa using hne2
  simp [initHistories, load_history, save_history, e1, e2, initOne_eq]

set_option maxRecDepth 4000 in
/-- Claim C4 counterexample: saving an empty `history_1` next to a
non-empty `history_2` and loading back does not reproduce `history_2` up to
padding — the start-up guard `if loaded1 and loaded2:` resets both buffers
to all-missing instead. -/
theorem save_load_roundtrip_counterexample :
    initHistories (load_history (some (save_history [] [TVal.val 25])))
      ≠ (padTruncSpec [], padTruncSpec [TVal.val 25]) := by
  decide

/-- Witness for C4's amended theorem at concrete non-empty histories. -/
theorem save_load_roundtrip_witness :
    (([TVal.val 20] : List TVal) ≠ []
      ∧ ([TVal.val 21, TVal.nan] : List TVal) ≠ [])
    ∧ initHistories (load_history (some (save_history [TVal.val 20]
        [TVal.val 21, TVal.nan])))
      = (padTruncSpec [TVal.val 20], padTruncSpec [TVal.val 21, TVal.nan]) :=
  ⟨⟨by decide, by decide⟩,
    save_load_roundtrip [TVal.val 20] [TVal.val 21, TVal.nan]
      (by decide) (by decide)⟩

/-- The `sensor2` update never touches the `sensor1` command. -/
theorem apply_remote_sensor2_sensor1 (d : PayloadDict) (now : ℚ)
    (lc : LastChanged) (cs : CommandState) :
    (apply_remote_sensor2 d now lc cs).sensor1 = cs.sensor1 := by
  unfold apply_remote_sensor2
  cases d.sensor2
  · rfl
  · dsimp only
    split <;> rfl

/-- The `sensor1` update never touches the `sensor2` command. -/
theorem apply_remote_sensor1_sensor2 (d : PayloadDict) (now : ℚ)
    (lc : LastChanged) (cs : CommandState) :
    (apply_remote_sensor1 d now lc cs).sensor2 = cs.sensor2 := by
  unfold apply_remote_sensor1
  cases d.sensor1
  · rfl
  · dsimp only
    split <;> rfl

/-- The `sensor1` update applies a present remote flag exactly when the
debounce window has elapsed. -/
theorem apply_remote_sensor1_eq (d : PayloadDict) (now : ℚ)
    (lc : LastChanged) (cs : CommandState) (b : Bool)
    (hb : d.sensor1 = some b) :
    (apply_remote_sensor1 d now lc cs).sensor1
      = if now - lc.sensor1 > 1 then b else cs.sensor1 := by
  unfold apply_remote_sensor1
  rw [hb]
  dsimp only
  split <;> rfl

/-- The `sensor2` update applies a present remote flag exactly when the
debounce window has elapsed. -/
theorem apply_remote_sensor2_eq (d : PayloadDict) (now : ℚ)
    (lc : LastChanged) (cs : CommandState) (b : Bool)
    (hb : d.sensor2 = some b) :
    (apply_remote_sensor2 d now lc cs).sensor2
      = if now - lc.sensor2 > 1 then b else cs.sensor2 := by
  unfold apply_remote_sensor2
  rw [hb]
  dsimp only
  split <;> rfl

/-- Claim C6: a remote-reported sensor flag for sensor `s ∈ {1,2}` in a
`/data` payload is applied to `command_state` exactly when more than the
1-second debounce window has elapsed since the last local toggle of that
sensor; otherwise the command is left unchanged. -/
theorem remote_debounce (d : PayloadDict) (now : ℚ) (st : ServerState)
    (b : Bool) (s : Nat) (hs : s = 1 ∨ s = 2)
    (hb : payloadSensor d s = some b) :
    cmdFor (receive_data (ReqBody.json d) now st).1.command_state s
      = if now - lcFor st.last_changed s > 1 then b
        else cmdFor st.command_state s := by
  rcases hs with rfl | rfl <;> simp only [payloadSensor, if_true] at hb
  · simp only [cmdFor, lcFor, if_pos rfl, receive_data, update_command_state,
      apply_remote_sensor2_sensor1]
    exact apply_remote_sensor1_eq d now st.last_changed st.command_state b hb
  · norm_num at hb
    have h2 : (2 : Nat) = 1 ↔ False := by norm_num
    simp only [cmdFor, lcFor, h2, if_false, receive_data, update_command_state]
    rw [apply_remote_sensor2_eq _ _ _ _ _ hb,
      apply_remote_sensor1_sensor2]

/-- Witness for C6: after the GUI toggles sensor 1 off at time 100, a remote
`sensor1 = true` is ignored at 100.5 s and accepted at 101.5 s. -/
theorem remote_debounce_witness :
    (((1 : Nat) = 1 ∨ (1 : Nat) = 2)
      ∧ payloadSensor samplePayload 1 = some true)
    ∧ (cmdFor (receive_data (ReqBody.json samplePayload) (201/2)
        sampleServer).1.command_state 1
      = if (201/2 : ℚ) - lcFor sampleServer.last_changed 1 > 1 then true
        else cmdFor sampleServer.command_state 1)
    ∧ (cmdFor (receive_data (ReqBody.json samplePayload) (203/2)
        sampleServer).1.command_state 1
      = if (203/2 : ℚ) - lcFor sampleServer.last_changed 1 > 1 then true
        else cmdFor sampleServer.command_state 1) :=
  ⟨⟨Or.inl rfl, by decide⟩,
    remote_debounce samplePayload (201/2) sampleServer true 1
      (Or.inl rfl) (by decide),
    remote_debounce samplePayload (203/2) sampleServer true 1
      (Or.inl rfl) (by decide)⟩

/-- The y-side of the split loop, in terms of `runsFrom`: the x and y
accumulators always have equal length, so flushing on `current_x` empties
exactly when the y-run is empty. -/
theorem get_segments_loop_snd {α : Type} :
    ∀ (xy : List (α × TVal)) (cx : List α) (cy : List TVal)
      (segs : List (List α × List TVal)), cx.length = cy.length →
      (get_segments_loop xy cx cy segs).map Prod.snd
        = segs.map Prod.snd ++ runsFrom cy (xy.map Prod.snd) := by
  intro xy
  induction xy with
  | nil =>
      intro cx cy segs h
      by_cases hcx : cx.isEmpty
      · have hcy : cy.isEmpty = true := by
          cases cx <;> cases cy <;> simp_all
        simp [get_segments_loop, runsFrom, hcx, hcy]
      · have hcy : cy.isEmpty = false := by
          cases cx <;> cases cy <;> simp_all
        simp [get_segments_loop, runsFrom, hcx, hcy]
  | cons p rest ih =>
      intro cx cy segs h
      obtain ⟨xi, yi⟩ := p
      cases yi with
      | val q =>
          have hlen : (cx ++ [xi]).length = (cy ++ [TVal.val q]).length := by
            simp [h]
          simp only [get_segments_loop, List.map_cons]
          rw [if_pos (show (TVal.val q).isMissing = false from rfl),
            ih (cx ++ [xi]) (cy ++ [TVal.val q]) segs hlen]
          rfl
      | nan =>
          by_cases hcx : cx.isEmpty
          · have hcy : cy.isEmpty = true := by
              cases cx <;> cases cy <;> simp_all
            simp only [get_segments_loop, TVal.isMissing, List.map_cons]
            rw [if_neg (by simp), if_pos hcx, ih cx cy segs h]
            simp [runsFrom, hcy]
            have : cy = [] := by simpa [List.isEmpty_iff] using hcy
            simp [this]
          · have hcy : cy.isEmpty = false := by
              cases cx <;> cases cy <;> simp_all
            simp only [get_segments_loop, TVal.isMissing, List.map_cons]
            rw [if_neg (by simp), if_neg (by simp [hcx]),
              ih [] [] (segs ++ [(cx, cy)]) rfl]
            simp [runsFrom, hcy]

/-- `runsFrom` in terms of the spec-side `maximalRuns`: an in-progress run
absorbs the longest present prefix and the remainder splits as usual. -/
theorem runsFrom_eq :
    ∀ (y : List TVal) (cur : List TVal),
      runsFrom cur y
        = if cur.isEmpty then maximalRuns y
          else (cur ++ y.takeWhile (fun v => !v.isMissing)) ::
            maximalRuns (y.dropWhile (fun v => !v.isMissing)) := by
  intro y
  induction y with
  | nil =>
      intro cur
      by_cases hc : cur.isEmpty <;>
        simp [runsFrom, maximalRuns, hc]
  | cons v rest ih =>
      intro cur
      cases v with
      | nan =>
          by_cases hc : cur.isEmpty <;>
            simp [runsFrom, hc, ih, maximalRuns, List.takeWhile_cons,
              List.dropWhile_cons, TVal.isMissing]
      | val q =>
          have hne : (cur ++ [TVal.val q]).isEmpty = false := by
            cases cur <;> simp
          by_cases hc : cur.isEmpty
          · have hcur : cur = [] := by simpa [List.isEmpty_iff] using hc
            subst hcur
            simp [runsFrom, ih [TVal.val q], maximalRuns,
              List.takeWhile_cons, List.dropWhile_cons, TVal.isMissing]
          · simp [runsFrom, hc, ih (cur ++ [TVal.val q]), hne, maximalRuns,
              List.takeWhile_cons, List.dropWhile_cons, TVal.isMissing]

/-- Flattening the runs recovers exactly the present values, in order. -/
theorem runsFrom_flatten :
    ∀ (y : List TVal) (cur : List TVal),
      (runsFrom cur y).flatten = cur ++ y.filter (fun v => !v.isMissing) := by
  intro y
  induction y with
  | nil =>
      intro cur
      by_cases hc : cur.isEmpty
      · have : cur = [] := by simpa [List.isEmpty_iff] using hc
        simp [runsFrom, hc, this]
      · simp [runsFrom, hc]
  | cons v rest ih =>
      intro cur
      cases v with
      | nan =>
          by_cases hc : cur.isEmpty
          · have : cur = [] := by simpa [List.isEmpty_iff] using hc
            simp [runsFrom, hc, ih, this, TVal.isMissing]
          · simp [runsFrom, hc, ih, TVal.isMissing]
      | val q =>
          simp only [runsFrom, ih (cur ++ [TVal.val q])]
          simp [TVal.isMissing]

/-- No run produced by the split is empty. -/
theorem runsFrom_ne_nil :
    ∀ (y : List TVal) (cur : List TVal) (r : List TVal),
      r ∈ runsFrom cur y → r ≠ [] := by
  intro y
  induction y with
  | nil =>
      intro cur r hr
      by_cases hc : cur.isEmpty
      · simp [runsFrom, hc] at hr
      · simp [runsFrom, hc] at hr
        subst hr
        simpa [List.isEmpty_iff] using hc
  | cons v rest ih =>
      intro cur r hr
      cases v with
      | nan =>
          by_cases hc : cur.isEmpty
          · rw [runsFrom, if_pos hc] at hr
            exact ih [] r hr
          · rw [runsFrom, if_neg hc] at hr
            rcases List.mem_cons.mp hr with rfl | h
            · simpa [List.isEmpty_iff] using hc
            · exact ih [] r h
      | val q =>
          rw [runsFrom] at hr
          exact ih (cur ++ [TVal.val q]) r hr

/-- Claim C7: `get_segments` returns exactly the maximal runs of
consecutive present values, in order — its y-runs equal the spec-side
`maximalRuns`, no emitted run is empty, and concatenating the runs gives
back precisely the present values (each present value belongs to exactly
one run). -/
theorem get_segments_maximal_runs (x : List ℚ) (y : List TVal)
    (h : x.length = y.length) :
    (get_segments x y).2 = maximalRuns y
    ∧ (∀ r ∈ (get_segments x y).2, r ≠ [])
    ∧ ((get_segments x y).2).flatten = y.filter (fun v => !v.isMissing) := by
  have hz : (x.zip y).map Prod.snd = y :=
    List.map_snd_zip x y (le_of_eq h.symm)
  have hms : (get_segments x y).2 = runsFrom [] y := by
    simp only [get_segments]
    rw [get_segments_loop_snd (x.zip y) [] [] [] rfl, hz]
    simp
  have he : runsFrom ([] : List TVal) y = maximalRuns y := by
    rw [runsFrom_eq]
    simp
  refine ⟨hms.trans he, ?_, ?_⟩
  · intro r hr
    rw [hms] at hr
    exact runsFrom_ne_nil y [] r hr
  · rw [hms, runsFrom_flatten]
    simp

/-- Witness for C7 at a concrete discontinuous series. -/
theorem get_segments_maximal_runs_witness :
    ([3, 2, 1] : List ℚ).length
        = ([TVal.val 5, TVal.nan, TVal.val 7] : List TVal).length
    ∧ ((get_segments [3, 2, 1] [TVal.val 5, TVal.nan, TVal.val 7]).2
          = maximalRuns [TVal.val 5, TVal.nan, TVal.val 7]
      ∧ (∀ r ∈ (get_segments [3, 2, 1]
          [TVal.val 5, TVal.nan, TVal.val 7]).2, r ≠ [])
      ∧ ((get_segments [3, 2, 1]
          [TVal.val 5, TVal.nan, TVal.val 7]).2).flatten
        = ([TVal.val 5, TVal.nan, TVal.val 7] : List TVal).filter
            (fun v => !v.isMissing)) :=
  ⟨rfl, get_segments_maximal_runs [3, 2, 1]
    [TVal.val 5, TVal.nan, TVal.val 7] rfl⟩

/-- The high block never decreases any `last_alert_time` entry. -/
theorem check_alerts_high_mono (sn : SensorName) (v now : ℚ) (t : AlertTimes)
    (sn' : SensorName) (k' : AlertKind) :
    t sn' k' ≤ (check_alerts_high sn v now t).1 sn' k' := by
  unfold check_alerts_high
  split
  · split
    · rename_i h32 hcd
      simp only [ALERT_COOLDOWN] at hcd
      simp only [updateAlert]
      split
      · rename_i hk
        rcases hk with ⟨h1, h2⟩
        subst h1
        subst h2
        linarith
      · exact le_refl _
    · exact le_refl _
  · exact le_refl _

/-- The low block never decreases any `last_alert_time` entry. -/
theorem check_alerts_low_mono (sn : SensorName) (v now : ℚ) (t : AlertTimes)
    (sn' : SensorName) (k' : AlertKind) :
    t sn' k' ≤ (check_alerts_low sn v now t).1 sn' k' := by
  unfold check_alerts_low
  split
  · split
    · rename_i h21 hcd
      simp only [ALERT_COOLDOWN] at hcd
      simp only [updateAlert]
      split
      · rename_i hk
        rcases hk with ⟨h1, h2⟩
        subst h1
        subst h2
        linarith
      · exact le_refl _
    · exact le_refl _
  · exact le_refl _

/-- `check_alerts` never decreases any `last_alert_time` entry. -/
theorem check_alerts_mono (sn : SensorName) (temp : Option ℚ) (now : ℚ)
    (t : AlertTimes) (sn' : SensorName) (k' : AlertKind) :
    t sn' k' ≤ (check_alerts sn temp now t).1 sn' k' := by
  cases temp with
  | none => exact le_refl _
  | some v =>
      simp only [check_alerts]
      exact le_trans (check_alerts_high_mono sn v now t sn' k')
        (check_alerts_low_mono sn v now (check_alerts_high sn v now t).1 sn' k')

/-- An event emitted by the high block: its shape, the cooldown that
licensed it, and the stamp it leaves behind. -/
theorem check_alerts_high_event (sn : SensorName) (v now : ℚ)
    (t : AlertTimes) (e : AlertEvent)
    (he : e ∈ (check_alerts_high sn v now t).2) :
    e.sensor = sn ∧ e.kind = AlertKind.high ∧ e.time = now
      ∧ t sn AlertKind.high + ALERT_COOLDOWN ≤ now
      ∧ (check_alerts_high sn v now t).1 sn AlertKind.high = now := by
  unfold check_alerts_high at he ⊢
  split at he
  · split at he
    · rename_i h32 hcd
      simp only [List.mem_singleton] at he
      subst he
      refine ⟨rfl, rfl, rfl, by linarith, ?_⟩
      rw [if_pos h32, if_pos hcd]
      simp [updateAlert]
    · simp at he
  · simp at he

/-- An event emitted by the low block: its shape, the cooldown that
licensed it, and the stamp it leaves behind. -/
theorem check_alerts_low_event (sn : SensorName) (v now : ℚ)
    (t : AlertTimes) (e : AlertEvent)
    (he : e ∈ (check_alerts_low sn v now t).2) :
    e.sensor = sn ∧ e.kind = AlertKind.low ∧ e.time = now
      ∧ t sn AlertKind.low + ALERT_COOLDOWN ≤ now
      ∧ (check_alerts_low sn v now t).1 sn AlertKind.low = now := by
  unfold check_alerts_low at he ⊢
  split at he
  · split at he
    · rename_i h21 hcd
      simp only [List.mem_singleton] at he
      subst he
      refine ⟨rfl, rfl, rfl, by linarith, ?_⟩
      rw [if_pos h21, if_pos hcd]
      simp [updateAlert]
    · simp at he
  · simp at he

/-- The low block leaves every high-kind stamp unchanged. -/
theorem check_alerts_low_get_high (sn : SensorName) (v now : ℚ)
    (t : AlertTimes) (sn' : SensorName) :
    (check_alerts_low sn v now t).1 sn' AlertKind.high
      = t sn' AlertKind.high := by
  unfold check_alerts_low
  split
  · split
    · simp [updateAlert]
    · rfl
  · rfl

/-- Any event sent by one `check_alerts` call fires at least a cooldown
after the stamp the call started from. -/
theorem check_alerts_event_ge (sn : SensorName) (temp : Option ℚ)
    (now : ℚ) (t : AlertTimes) (e : AlertEvent)
    (he : e ∈ (check_alerts sn temp now t).2) :
    t e.sensor e.kind + ALERT_COOLDOWN ≤ e.time := by
  cases temp with
  | none => simp [check_alerts] at he
  | some v =>
      simp only [check_alerts] at he
      rcases List.mem_append.mp he with h | h
      · obtain ⟨hsn, hk, htime, hcd, _⟩ := check_alerts_high_event sn v now t e h
        rw [hsn, hk, htime]
        exact hcd
      · obtain ⟨hsn, hk, htime, hcd, _⟩ :=
          check_alerts_low_event sn v now (check_alerts_high sn v now t).1 e h
        rw [hsn, hk, htime]
        calc t sn AlertKind.low + ALERT_COOLDOWN
            ≤ (check_alerts_high sn v now t).1 sn AlertKind.low + ALERT_COOLDOWN := by
              have := check_alerts_high_mono sn v now t sn AlertKind.low
              linarith
          _ ≤ now := hcd

/-- After a `check_alerts` call that sent event `e`, the stamp for `e`'s
key equals `e`'s firing time. -/
theorem check_alerts_event_stamp (sn : SensorName) (temp : Option ℚ)
    (now : ℚ) (t : AlertTimes) (e : AlertEvent)
    (he : e ∈ (check_alerts sn temp now t).2) :
    (check_alerts sn temp now t).1 e.sensor e.kind = e.time := by
  cases temp with
  | none => simp [check_alerts] at he
  | some v =>
      simp only [check_alerts] at he ⊢
      rcases List.mem_append.mp he with h | h
      · obtain ⟨hsn, hk, htime, _, hset⟩ :=
          check_alerts_high_event sn v now t e h
        rw [hsn, hk, htime, check_alerts_low_get_high, hset]
      · obtain ⟨hsn, hk, htime, _, hset⟩ :=
          check_alerts_low_event sn v now (check_alerts_high sn v now t).1 e h
        rw [hsn, hk, htime, hset]

/-- One `check_alerts` call sends at most one notification: the high and
low conditions `v > 32` and `v < 21` cannot both hold. -/
theorem check_alerts_len_le_one (sn : SensorName) (temp : Option ℚ)
    (now : ℚ) (t : AlertTimes) :
    (check_alerts sn temp now t).2.length ≤ 1 := by
  cases temp with
  | none => simp [check_alerts]
  | some v =>
      simp only [check_alerts]
      unfold check_alerts_high check_alerts_low
      split_ifs <;> simp_all
      linarith

/-- A list of at most one element is vacuously pairwise. -/
theorem pairwise_of_length_le_one {R : AlertEvent → AlertEvent → Prop}
    {l : List AlertEvent} (h : l.length ≤ 1) : l.Pairwise R := by
  match l, h with
  | [], _ => exact List.Pairwise.nil
  | [a], _ => simp
  | a :: b :: rest, h => simp at h

/-- Every event of a run fires at least a cooldown after the stamp the run
started from, for its key. -/
theorem alerts_run_event_ge :
    ∀ (calls : List AlertCall) (t : AlertTimes) (e : AlertEvent),
      e ∈ (alerts_run t calls).2 →
      t e.sensor e.kind + ALERT_COOLDOWN ≤ e.time := by
  intro calls
  induction calls with
  | nil =>
      intro t e he
      simp [alerts_run] at he
  | cons c rest ih =>
      intro t e he
      simp only [alerts_run] at he
      rcases List.mem_append.mp he with h | h
      · exact check_alerts_event_ge c.sensor c.temp_c c.now t e h
      · have h1 := ih (check_alerts c.sensor c.temp_c c.now t).1 e h
        have h2 := check_alerts_mono c.sensor c.temp_c c.now t e.sensor e.kind
        linarith

/-- Same-key events of a run are spaced by at least the cooldown, from any
starting stamp. -/
theorem alerts_run_pairwise :
    ∀ (calls : List AlertCall) (t : AlertTimes),
      ((alerts_run t calls).2).Pairwise
        (fun e e' => e.sensor = e'.sensor → e.kind = e'.kind →
          e.time + ALERT_COOLDOWN ≤ e'.time) := by
  intro calls
  induction calls with
  | nil =>
      intro t
      simp [alerts_run]
  | cons c rest ih =>
      intro t
      simp only [alerts_run]
      rw [List.pairwise_append]
      refine ⟨pairwise_of_length_le_one
          (check_alerts_len_le_one c.sensor c.temp_c c.now t),
        ih (check_alerts c.sensor c.temp_c c.now t).1, ?_⟩
      intro e he e' he' hsn hk
      have hstamp := check_alerts_event_stamp c.sensor c.temp_c c.now t e he
      have hge := alerts_run_event_ge rest
        (check_alerts c.sensor c.temp_c c.now t).1 e' he'
      rw [← hsn, ← hk] at hge
      rw [hstamp] at hge
      exact hge

/-- Claim C10: in the cooldown-based `check_alerts`, for every sensor and
alert kind, notifications of that key sent along any sequence of calls
starting from the initial `last_alert_time` are spaced at least
`ALERT_COOLDOWN` (30 s) apart: once one fires at time `t`, no same-key
notification fires strictly before `t + 30`. -/
theorem alert_cooldown_spacing (calls : List AlertCall) :
    ((alerts_run initial_alert_times calls).2).Pairwise
      (fun e e' => e.sensor = e'.sensor → e.kind = e'.kind →
        e.time + ALERT_COOLDOWN ≤ e'.time) :=
  alerts_run_pairwise calls initial_alert_times

end SmartThermometer
